import Mathlib

/-!
# Verification of `docs/port_usage_report.py`

A shallow embedding of the port-usage reporting engine:
Python strings are modelled as `List Char` (`PyStr`), Python dicts keyed by
`(proto, host_ip, host_port)` as association lists with last-write-wins
insertion, and the external effects (the `docker ps` subprocess, the
`psutil` socket table, per-process lookups, and the TCP connect attempt)
as explicit parameters describing their outcomes.
-/

/-- Python strings, modelled as lists of characters. -/
abbrev PyStr := List Char

/-- The characters stripped by Python `str.strip()` (ASCII whitespace;
the inputs handled here contain no exotic Unicode whitespace). -/
def isPySpace (c : Char) : Bool :=
  c = ' ' || c = '\t' || c = '\n' || c = '\r' || c = '\x0b' || c = '\x0c'

/-- Python `s.strip()`: remove leading and trailing whitespace. -/
def pyStrip (s : PyStr) : PyStr :=
  ((s.dropWhile isPySpace).reverse.dropWhile isPySpace).reverse

/-- Python `s.split(sep)` for a one-character separator: split on every
occurrence, keeping empty pieces (`"".split(t)` is `[""]`). -/
def pySplitChar (sep : Char) : PyStr → List PyStr
  | [] => [[]]
  | c :: rest =>
    if c = sep then [] :: pySplitChar sep rest
    else
      match pySplitChar sep rest with
      | [] => [[c]]
      | p :: ps => (c :: p) :: ps

/-- Python `s.split("->", 1)` combined with the `"->" in s` test:
`none` when the arrow does not occur, otherwise the pieces around the
first occurrence. -/
def splitFirstArrow : PyStr → Option (PyStr × PyStr)
  | '-' :: '>' :: rest => some ([], rest)
  | c :: rest => (splitFirstArrow rest).map (fun p => (c :: p.1, p.2))
  | [] => none

/-- Python `s.split(sep, 1)` combined with the `sep in s` test, for a
one-character separator. -/
def splitFirstChar (sep : Char) : PyStr → Option (PyStr × PyStr)
  | [] => none
  | c :: rest =>
    if c = sep then some ([], rest)
    else (splitFirstChar sep rest).map (fun p => (c :: p.1, p.2))

/-- Python `s.rsplit(sep, 1)` combined with the `sep in s` test:
split at the last occurrence of the separator. -/
def rsplitLastChar (sep : Char) (s : PyStr) : Option (PyStr × PyStr) :=
  (splitFirstChar sep s.reverse).map (fun p => (p.2.reverse, p.1.reverse))

/-- Python `s.lower()` (the inputs are ASCII). -/
def pyToLower (s : PyStr) : PyStr := s.map Char.toLower

/-- Numeric value of a digit string. -/
def digitsVal (l : PyStr) : Nat :=
  l.foldl (fun a c => a * 10 + (c.toNat - ('0').toNat)) 0

/-- Python `int(s)`: optional surrounding whitespace, optional sign, then
at least one decimal digit; `none` models the `ValueError` branch. -/
def pyParseInt (s : PyStr) : Option Int :=
  let t := pyStrip s
  match t with
  | '+' :: rest =>
    if !rest.isEmpty && rest.all Char.isDigit then some (digitsVal rest) else none
  | '-' :: rest =>
    if !rest.isEmpty && rest.all Char.isDigit then some (-(digitsVal rest : Int)) else none
  | _ =>
    if !t.isEmpty && t.all Char.isDigit then some (digitsVal t) else none

/-- The container-side port: `int(container_port_str)` when it parses,
otherwise the raw string (the deliberate fallback at line 168). -/
inductive IntOrStr
  | int (n : Int)
  | str (s : PyStr)
deriving DecidableEq, Repr

/-- Key of the Docker port mapping: `(proto, host_ip, host_port)`. -/
abbrev DockerKey := PyStr × PyStr × Int

/-- Value of the Docker port mapping.  In the source this is a five-field
dict and is therefore never empty (so Python truthiness of a looked-up
value coincides with key presence). -/
structure DockerInfo where
  container_name : PyStr
  container_id : PyStr
  image : PyStr
  port_spec : PyStr
  container_port : IntOrStr
deriving DecidableEq, Repr

/-- `mapping[key] = value` on a Python dict: replace if present, else
append (dicts preserve insertion order). -/
def dictInsert (m : List (DockerKey × DockerInfo)) (k : DockerKey) (v : DockerInfo) :
    List (DockerKey × DockerInfo) :=
  if m.any (fun p => decide (p.1 = k)) then
    m.map (fun p => if p.1 = k then (k, v) else p)
  else m ++ [(k, v)]

/-- `mapping.get(key)` on a Python dict. -/
def dictGet (m : List (DockerKey × DockerInfo)) (k : DockerKey) : Option DockerInfo :=
  (m.find? (fun p => decide (p.1 = k))).map (fun p => p.2)

/-- Lines 157–158: strip one pair of surrounding square brackets
(`host_ip[1:-1]` when it starts with `[` and ends with `]`). -/
def stripBrackets (s : PyStr) : PyStr :=
  if s.head? = some '[' ∧ s.getLast? = some ']' then (s.drop 1).dropLast else s

/-- One host→container entry of a ports field (lines 136–178 of the
source, body of the inner loop): `none` models every `continue`. -/
def parseEntry (name cid image : PyStr) (entry : PyStr) :
    Option (DockerKey × DockerInfo) :=
  match splitFirstArrow entry with
  | none => none
  | some (l0, r0) =>
    let left := pyStrip l0
    let right := pyStrip r0
    let (container_port_str, protoRaw) :=
      match splitFirstChar '/' right with
      | some p => p
      | none => (right, [])
    let proto0 := pyStrip (pyToLower protoRaw)
    let proto := if proto0.isEmpty then "tcp".toList else proto0
    match rsplitLastChar ':' left with
    | none => none
    | some (host_ip_raw, host_port_str) =>
      let host_ip := stripBrackets (pyStrip host_ip_raw)
      match pyParseInt host_port_str with
      | none => none
      | some host_port =>
        let container_port : IntOrStr :=
          match pyParseInt container_port_str with
          | some n => .int n
          | none => .str container_port_str
        some ((proto, host_ip, host_port),
          { container_name := name, container_id := cid, image := image,
            port_spec := entry, container_port := container_port })

/-- Metadata of the Docker collection, as initialised at lines 83–89
(`command` is a fixed string literal and carries no information, so it is
not modelled as a field). -/
structure DockerMeta where
  available : Bool
  error : Option PyStr
  containers_total : Nat
  containers_with_published_ports : Nat
deriving DecidableEq, Repr

/-- The initial `meta` dict of `collect_docker_port_mappings`. -/
def initMeta : DockerMeta :=
  { available := false, error := none,
    containers_total := 0, containers_with_published_ports := 0 }

/-- Mutable state threaded through the per-line loop (lines 115–181):
the mapping dict, the `containers_total` counter and the
`containers_with_published_ports` set of names. -/
structure DockerState where
  mapping : List (DockerKey × DockerInfo)
  containers_total : Nat
  published : List PyStr
deriving Repr

/-- `set.add` on an insertion-ordered model of a Python set. -/
def setAdd (s : List PyStr) (x : PyStr) : List PyStr :=
  if x ∈ s then s else s ++ [x]

/-- The entry list iterated at line 136:
`[e.strip() for e in ports_str.split(",") if e.strip()]`. -/
def portsEntries (ports_str : PyStr) : List PyStr :=
  ((pySplitChar ',' ports_str).map pyStrip).filter (fun e => !e.isEmpty)

/-- Body of the outer per-line loop (lines 118–181). -/
def processLine (st : DockerState) (line : PyStr) : DockerState :=
  if (pyStrip line).isEmpty then st
  else
    match (pySplitChar '\t' line).map pyStrip with
    | name :: cid :: image :: ports_str :: _ =>
      let st := { st with containers_total := st.containers_total + 1 }
      if ports_str.isEmpty then st
      else
        let step := (portsEntries ports_str).foldl
          (fun (acc : List (DockerKey × DockerInfo) × Bool) e =>
            match parseEntry name cid image e with
            | none => acc
            | some (k, v) => (dictInsert acc.1 k v, true))
          (st.mapping, false)
        let st := { st with mapping := step.1 }
        if step.2 then { st with published := setAdd st.published name } else st
    | _ => st

/-- Outcome of the `subprocess.run` call for `docker ps` (lines 91–103):
the binary may be missing (`FileNotFoundError`), the command may exit
non-zero (`CalledProcessError`, with the exception text), or it succeeds
with some stdout. -/
inductive DockerCmdResult
  | binaryMissing
  | exitNonZero (msg : PyStr)
  | success (stdout : PyStr)

/-- Error string at line 99. -/
def errBinaryMissing : PyStr := "docker binary not found".toList

/-- The fixed first part of the f-string at line 102. -/
def errPsFailed : PyStr := "docker ps failed: ".toList

/-- `collect_docker_port_mappings` (lines 63–186).  The split on a
newline models `output.splitlines()`: `output` is stripped and non-empty
at that point, so it has no leading or trailing line break and the two
agree. -/
def collect_docker_port_mappings (res : DockerCmdResult) :
    List (DockerKey × DockerInfo) × DockerMeta :=
  match res with
  | .binaryMissing => ([], { initMeta with error := some errBinaryMissing })
  | .exitNonZero msg => ([], { initMeta with error := some (errPsFailed ++ msg) })
  | .success raw =>
    let output := pyStrip raw
    if output.isEmpty then ([], { initMeta with available := true })
    else
      let lines := pySplitChar '\n' output
      if lines.isEmpty then ([], { initMeta with available := true })
      else
        let st := lines.foldl processLine ⟨[], 0, []⟩
        (st.mapping,
          { available := true, error := none,
            containers_total := st.containers_total,
            containers_with_published_ports := st.published.length })

/-- The socket type of a connection entry: the source compares
`conn.type` against `socket.SOCK_STREAM` and `socket.SOCK_DGRAM` and
treats everything else uniformly (lines 216–221). -/
inductive SockType
  | sockStream
  | sockDgram
  | otherType
deriving DecidableEq, Repr

/-- One entry of `psutil.net_connections(kind="inet")`.  `ip` and `port`
model `getattr(conn.laddr, ..., None)`: `none` when the local address
tuple lacks the attribute. -/
structure Conn where
  status : PyStr
  ip : Option PyStr
  port : Option Int
  type : SockType
  pid : Option Int
deriving DecidableEq, Repr

/-- `psutil.CONN_LISTEN`. -/
def CONN_LISTEN : PyStr := "LISTEN".toList

/-- The results of the three per-process calls `p.name()`,
`p.cmdline()` and `p.username()`; `none` models the call raising one of
the caught exceptions (`NoSuchProcess`, `AccessDenied`,
`ZombieProcess`). -/
structure ProcCalls where
  nameR : Option PyStr
  cmdlineR : Option (List PyStr)
  usernameR : Option PyStr

/-- The process table: `none` models `psutil.Process(pid)` itself
raising one of the caught exceptions. -/
abbrev ProcEnv := Int → Option ProcCalls

/-- The `try` block at lines 229–235: the three assignments run in
order inside one `try`, so a raised call leaves the fields assigned
before it set and the later ones at their `None` initialisation.
Returns `(process_name, cmdline, username)`. -/
def lookupProcFields (env : ProcEnv) (pid : Int) :
    Option PyStr × Option PyStr × Option PyStr :=
  match env pid with
  | none => (none, none, none)
  | some pc =>
    match pc.nameR with
    | none => (none, none, none)
    | some nm =>
      match pc.cmdlineR with
      | none => (some nm, none, none)
      | some cl =>
        match pc.usernameR with
        | none => (some nm, some (List.intercalate [' '] cl), none)
        | some un => (some nm, some (List.intercalate [' '] cl), some un)

/-- One record of the `ports` array.  The five `docker_*` fields are
`Option`s whose presence models presence of the key in the emitted JSON
object; the looked-up dict value is a five-field dict and hence always
truthy, so `if docker_info:` at line 251 coincides with the lookup
having succeeded. -/
structure PortRecord where
  proto : PyStr
  ip : PyStr
  port : Int
  status : PyStr
  pid : Option Int
  user : Option PyStr
  process : Option PyStr
  cmdline : Option PyStr
  docker_container_name : Option PyStr
  docker_container_id : Option PyStr
  docker_image : Option PyStr
  docker_port_spec : Option PyStr
  docker_container_port : Option IntOrStr
deriving DecidableEq, Repr

/-- Body of the per-connection loop of `collect_port_usage`
(lines 204–258); `none` models the two `continue`s. -/
def buildRecord (docker_map : List (DockerKey × DockerInfo)) (env : ProcEnv)
    (conn : Conn) : Option PortRecord :=
  if conn.status ≠ CONN_LISTEN then none
  else
    match conn.ip, conn.port with
    | some ip, some port =>
      let proto : PyStr :=
        match conn.type with
        | .sockStream => "tcp".toList
        | .sockDgram => "udp".toList
        | .otherType => "other".toList
      let fields :=
        match conn.pid with
        | some n => if n ≠ 0 then lookupProcFields env n else (none, none, none)
        | none => (none, none, none)
      let docker_info := dictGet docker_map (proto, ip, port)
      some
        { proto := proto, ip := ip, port := port,
          status := conn.status, pid := conn.pid,
          user := fields.2.2, process := fields.1, cmdline := fields.2.1,
          docker_container_name := docker_info.map (fun i => i.container_name),
          docker_container_id := docker_info.map (fun i => i.container_id),
          docker_image := docker_info.map (fun i => i.image),
          docker_port_spec := docker_info.map (fun i => i.port_spec),
          docker_container_port := docker_info.map (fun i => i.container_port) }
    | _, _ => none

/-- Strict lexicographic comparison of Python strings (comparison by
code point, as Python compares `str`). -/
def pyStrLt : PyStr → PyStr → Bool
  | [], [] => false
  | [], _ :: _ => true
  | _ :: _, [] => false
  | a :: as, b :: bs =>
    if a.toNat < b.toNat then true
    else if b.toNat < a.toNat then false
    else pyStrLt as bs

/-- Non-strict comparison of the sort keys `(r["proto"], r["port"],
r["ip"])` (line 261), i.e. Python tuple comparison. -/
def keyLe (k1 k2 : PyStr × Int × PyStr) : Bool :=
  pyStrLt k1.1 k2.1 ||
    (decide (k1.1 = k2.1) &&
      (decide (k1.2.1 < k2.2.1) ||
        (decide (k1.2.1 = k2.2.1) &&
          (pyStrLt k1.2.2 k2.2.2 || decide (k1.2.2 = k2.2.2)))))

/-- The sort key of line 261. -/
def recKey (r : PortRecord) : PyStr × Int × PyStr := (r.proto, r.port, r.ip)

/-- The sort order on records as a relation. -/
def RecLe (r s : PortRecord) : Prop := keyLe (recKey r) (recKey s) = true

instance : DecidableRel RecLe := fun r s => decEq _ _

/-- `collect_port_usage` on a successful socket enumeration
(lines 198–262).  `records.sort(key=...)` is Python's stable sort with
respect to the key order; insertion sort on the non-strict key order is
also stable, and any two stable sorts of the same list coincide. -/
def collectRecords (conns : List Conn)
    (docker_map : List (DockerKey × DockerInfo)) (env : ProcEnv) :
    List PortRecord :=
  (conns.filterMap (buildRecord docker_map env)).insertionSort RecLe

/-- `collect_port_usage` including the foundational
`psutil.net_connections` call (line 202), which may itself raise: the
exception propagates (there is no `try` in this function). -/
def collect_port_usage (netConns : Except PyStr (List Conn))
    (docker_map : List (DockerKey × DockerInfo)) (env : ProcEnv) :
    Except PyStr (List PortRecord) :=
  match netConns with
  | .error e => .error e
  | .ok conns => .ok (collectRecords conns docker_map env)

/-- The report object of `build_report` (lines 265–290). -/
structure Report where
  schema_version : PyStr
  script_version : PyStr
  host : PyStr
  generated_at : PyStr
  ip_local_port_range : Option (Int × Int)
  docker : DockerMeta
  ports : List PortRecord
deriving DecidableEq, Repr

/-- The host-side facts `build_report` consults: hostname, the
formatted UTC timestamp, the ephemeral port range read from
`/proc` (`none` when unreadable), the outcome of `docker ps`, the
outcome of the socket enumeration, and the process table. -/
structure HostEnv where
  hostname : PyStr
  now_iso : PyStr
  ip_range : Option (Int × Int)
  dockerRes : DockerCmdResult
  netConns : Except PyStr (List Conn)
  procEnv : ProcEnv

/-- `build_report` (lines 265–290); a failing socket enumeration
propagates out of it unhandled. -/
def build_report (he : HostEnv) : Except PyStr Report :=
  let dm := collect_docker_port_mappings he.dockerRes
  match collect_port_usage he.netConns dm.1 he.procEnv with
  | .error e => .error e
  | .ok records =>
    .ok { schema_version := "1.1.0".toList, script_version := "1.1.0".toList,
          host := he.hostname, generated_at := he.now_iso,
          ip_local_port_range := he.ip_range, docker := dm.2,
          ports := records }

/-- Outcome of the single `s.connect_ex((host, port))` call: either it
returns a result code, or it raises `OSError`. -/
inductive ConnectOutcome
  | code (n : Int)
  | oserror
deriving DecidableEq, Repr

/-- The default of the `timeout` parameter of `check_port_free`
(0.5 seconds, exactly representable). -/
def defaultCheckTimeout : ℚ := 1 / 2

/-- `check_port_free` (lines 466–481): one connection attempt; `OSError`
is interpreted conservatively as not free; otherwise free iff the
result code is non-zero.  `host`, `port` and `timeout` determine the
outcome only through the network, which is abstracted as `outcome`. -/
def check_port_free (host : PyStr) (port : Int) (timeout : ℚ)
    (outcome : ConnectOutcome) : Bool :=
  match outcome with
  | .oserror => false
  | .code result => decide (result ≠ 0)

/-- The parsed command-line arguments (lines 484–517). -/
structure Args where
  host : PyStr
  check_port : Option Int
  json_path : Option PyStr
  html : Bool

/-- Observable side effects of `main`, in order of occurrence. -/
inductive Event
  | wroteJson (path : Option PyStr) (r : Report)
  | wroteHtml (r : Report)
  | checkedPort (host : PyStr) (port : Int)
deriving DecidableEq, Repr

/-- `main` (lines 520–551): the trace of writes and checks performed
up to termination, and the exit code (`.error` models the uncaught
exception terminating the run with a traceback and a non-zero status,
with no file written).  Path construction from the script location is
abstracted into `args.json_path`. -/
def mainRun (args : Args) (he : HostEnv) (outcome : ConnectOutcome) :
    List Event × Except PyStr Int :=
  match build_report he with
  | .error e => ([], .error e)
  | .ok report =>
    let evs := [Event.wroteJson args.json_path report]
    let evs := if args.html then evs ++ [Event.wroteHtml report] else evs
    match args.check_port with
    | some port =>
      let evs := evs ++ [Event.checkedPort args.host port]
      if check_port_free args.host port defaultCheckTimeout outcome then
        (evs, .ok 0)
      else
        (evs, .ok 1)
    | none => (evs, .ok 0)

/-- Recogniser for the JSON-write event. -/
def isWroteJson : Event → Bool
  | .wroteJson _ _ => true
  | _ => false

/-- Recogniser for the runtime port-check event. -/
def isCheckedPort : Event → Bool
  | .checkedPort _ _ => true
  | _ => false

/-- The lines of the container listing that the collector counts toward
`containers_total`: non-blank and splitting on tab into at least four
fields (lines 118–128). -/
def lineValid (line : PyStr) : Bool :=
  !(pyStrip line).isEmpty &&
    decide (4 ≤ ((pySplitChar '\t' line).map pyStrip).length)

/-- The count asserted by the specification: lines of the (stripped)
listing output that split on tab into at least the four expected fields,
with no further requirement.  Stated from the spec's words, for
comparison with the code's behaviour (which additionally skips
whitespace-only lines before splitting). -/
def claimedValidLineCount (raw : PyStr) : Nat :=
  (pySplitChar '\n' (pyStrip raw)).countP
    (fun l => decide (4 ≤ (pySplitChar '\t' l).length))

/-- A process table where every lookup fails (process gone). -/
def envNone : ProcEnv := fun _ => none

/-- Container info of the spec's correlation example. -/
def nginxInfo : DockerInfo :=
  { container_name := "nginx".toList, container_id := "abc123".toList,
    image := "nginx:latest".toList,
    port_spec := "0.0.0.0:8080->80/tcp".toList, container_port := .int 80 }

/-- The container mapping of the spec's correlation example:
only `(tcp, 0.0.0.0, 8080)` is mapped. -/
def sampleMap : List (DockerKey × DockerInfo) :=
  [(("tcp".toList, "0.0.0.0".toList, 8080), nginxInfo)]

/-- Listening socket on port 8080 (spec's correlation example). -/
def conn8080 : Conn :=
  { status := CONN_LISTEN, ip := some "0.0.0.0".toList, port := some 8080,
    type := .sockStream, pid := none }

/-- Listening socket on port 9090 (spec's correlation example). -/
def conn9090 : Conn :=
  { status := CONN_LISTEN, ip := some "0.0.0.0".toList, port := some 9090,
    type := .sockStream, pid := none }

/-- Two listening sockets agreeing on protocol, IP and port but owned by
different processes (as the OS permits, e.g. with `SO_REUSEPORT`). -/
def connDupA : Conn :=
  { status := CONN_LISTEN, ip := some "0.0.0.0".toList, port := some 80,
    type := .sockStream, pid := some 1 }

/-- Second socket of the duplicate-key pair; differs only in the pid. -/
def connDupB : Conn :=
  { status := CONN_LISTEN, ip := some "0.0.0.0".toList, port := some 80,
    type := .sockStream, pid := some 2 }

/-- A container listing whose middle line is whitespace-only yet splits
on tab into four (empty) fields. -/
def tabsOnlyListing : PyStr :=
  "a\tb\tc\td\n\t\t\t\ne\tf\tg\th".toList

/-- One container publishing the same container port on an IPv4 and a
bracketed IPv6 host address (the dual-stack example of the spec). -/
def dualStackListing : PyStr :=
  "nginx\tabc123\tnginx:latest\t0.0.0.0:8080->80/tcp, [::]:8080->80/tcp".toList

/-- A listening socket owned by pid 42, used to exercise the
process-attribution failure paths. -/
def connPg : Conn :=
  { status := CONN_LISTEN, ip := some "127.0.0.1".toList, port := some 5432,
    type := .sockStream, pid := some 42 }

/-- A process table where `p.name()` succeeds for pid 42 but
`p.cmdline()` raises one of the caught exceptions. -/
def envPartialFailure : ProcEnv := fun p =>
  if p = 42 then
    some { nameR := some "postgres".toList, cmdlineR := none, usernameR := none }
  else none

/-- A fixed host environment around the injected external outcomes. -/
def sampleHostEnv (d : DockerCmdResult) (nc : Except PyStr (List Conn)) :
    HostEnv :=
  { hostname := "host".toList, now_iso := "2026-01-01T00:00:00+00:00".toList,
    ip_range := none, dockerRes := d, netConns := nc, procEnv := envNone }

/-! ## Order lemmas for the sort key -/

theorem charToNat_inj {a b : Char} (h : a.toNat = b.toNat) : a = b :=
  (show StrictMono Char.toNat from fun _ _ hab => hab).injective h

theorem pyStrLt_trans : ∀ (a b c : PyStr),
    pyStrLt a b = true → pyStrLt b c = true → pyStrLt a c = true
  | [], [], _, h1, _ => by simp [pyStrLt] at h1
  | [], _ :: _, [], _, h2 => by simp [pyStrLt] at h2
  | [], _ :: _, _ :: _, _, _ => rfl
  | _ :: _, [], _, h1, _ => by simp [pyStrLt] at h1
  | _ :: _, _ :: _, [], _, h2 => by simp [pyStrLt] at h2
  | a :: as, b :: bs, c :: cs, h1, h2 => by
    simp only [pyStrLt] at h1 h2 ⊢
    split_ifs at h1 h2 ⊢ <;> try omega
    all_goals try rfl
    all_goals try simp_all
    exact pyStrLt_trans as bs cs h1 h2

theorem pyStrLt_tri : ∀ (a b : PyStr),
    pyStrLt a b = true ∨ a = b ∨ pyStrLt b a = true
  | [], [] => Or.inr (Or.inl rfl)
  | [], _ :: _ => Or.inl rfl
  | _ :: _, [] => Or.inr (Or.inr rfl)
  | a :: as, b :: bs => by
    rcases Nat.lt_trichotomy a.toNat b.toNat with h | h | h
    · left; simp [pyStrLt, h]
    · have hab : a = b := charToNat_inj h
      subst hab
      rcases pyStrLt_tri as bs with h2 | h2 | h2
      · left; simp [pyStrLt, h2]
      · exact Or.inr (Or.inl (by rw [h2]))
      · right; right; simp [pyStrLt, h2]
    · right; right; simp [pyStrLt, h]

theorem pyStrLt_irrefl : ∀ (a : PyStr), pyStrLt a a = false
  | [] => rfl
  | _ :: as => by simp [pyStrLt, pyStrLt_irrefl as]

theorem pyStrLt_asymm {a b : PyStr} (h : pyStrLt a b = true) :
    pyStrLt b a = false := by
  by_contra hc
  have h2 : pyStrLt b a = true := by
    cases hh : pyStrLt b a
    · exact absurd hh hc
    · rfl
  have := pyStrLt_trans a b a h h2
  rw [pyStrLt_irrefl] at this
  cases this

theorem keyLe_iff (k1 k2 : PyStr × Int × PyStr) :
    keyLe k1 k2 = true ↔
      (pyStrLt k1.1 k2.1 = true ∨
        (k1.1 = k2.1 ∧ (k1.2.1 < k2.2.1 ∨
          (k1.2.1 = k2.2.1 ∧
            (pyStrLt k1.2.2 k2.2.2 = true ∨ k1.2.2 = k2.2.2))))) := by
  simp [keyLe, Bool.or_eq_true, Bool.and_eq_true, decide_eq_true_iff]

theorem keyLe_total (k1 k2 : PyStr × Int × PyStr) :
    keyLe k1 k2 = true ∨ keyLe k2 k1 = true := by
  rw [keyLe_iff, keyLe_iff]
  rcases pyStrLt_tri k1.1 k2.1 with h | h | h
  · exact Or.inl (Or.inl h)
  · rcases Int.lt_trichotomy k1.2.1 k2.2.1 with h2 | h2 | h2
    · exact Or.inl (Or.inr ⟨h, Or.inl h2⟩)
    · rcases pyStrLt_tri k1.2.2 k2.2.2 with h3 | h3 | h3
      · exact Or.inl (Or.inr ⟨h, Or.inr ⟨h2, Or.inl h3⟩⟩)
      · exact Or.inl (Or.inr ⟨h, Or.inr ⟨h2, Or.inr h3⟩⟩)
      · exact Or.inr (Or.inr ⟨h.symm, Or.inr ⟨h2.symm, Or.inl h3⟩⟩)
    · exact Or.inr (Or.inr ⟨h.symm, Or.inl h2⟩)
  · exact Or.inr (Or.inl h)

theorem keyLe_trans (k1 k2 k3 : PyStr × Int × PyStr)
    (h1 : keyLe k1 k2 = true) (h2 : keyLe k2 k3 = true) :
    keyLe k1 k3 = true := by
  rw [keyLe_iff] at h1 h2 ⊢
  rcases h1 with h1 | ⟨he1, h1⟩
  · rcases h2 with h2 | ⟨he2, _⟩
    · exact Or.inl (pyStrLt_trans _ _ _ h1 h2)
    · exact Or.inl (he2 ▸ h1)
  · rcases h2 with h2 | ⟨he2, h2⟩
    · exact Or.inl (he1 ▸ h2)
    · refine Or.inr ⟨he1.trans he2, ?_⟩
      rcases h1 with h1 | ⟨hp1, h1⟩
      · rcases h2 with h2 | ⟨hp2, _⟩
        · exact Or.inl (h1.trans h2)
        · exact Or.inl (hp2 ▸ h1)
      · rcases h2 with h2 | ⟨hp2, h2⟩
        · exact Or.inl (hp1 ▸ h2)
        · refine Or.inr ⟨hp1.trans hp2, ?_⟩
          rcases h1 with h1 | h1
          · rcases h2 with h2 | h2
            · exact Or.inl (pyStrLt_trans _ _ _ h1 h2)
            · exact Or.inl (h2 ▸ h1)
          · rcases h2 with h2 | h2
            · exact Or.inl (h1 ▸ h2)
            · exact Or.inr (h1.trans h2)

theorem keyLe_antisymm (k1 k2 : PyStr × Int × PyStr)
    (h1 : keyLe k1 k2 = true) (h2 : keyLe k2 k1 = true) : k1 = k2 := by
  rw [keyLe_iff] at h1 h2
  obtain ⟨p1, n1, s1⟩ := k1
  obtain ⟨p2, n2, s2⟩ := k2
  simp only at h1 h2
  rcases h1 with h1 | ⟨he1, h1⟩
  · rcases h2 with h2 | ⟨he2, _⟩
    · have := pyStrLt_asymm h1; rw [this] at h2; cases h2
    · rw [he2, pyStrLt_irrefl] at h1; cases h1
  · rcases h2 with h2 | ⟨_, h2⟩
    · rw [he1, pyStrLt_irrefl] at h2; cases h2
    · subst he1
      rcases h1 with h1 | ⟨hn1, h1⟩
      · rcases h2 with h2 | ⟨hn2, _⟩
        · omega
        · omega
      · rcases h2 with h2 | ⟨_, h2⟩
        · omega
        · subst hn1
          rcases h1 with h1 | h1
          · rcases h2 with h2 | h2
            · have := pyStrLt_asymm h1; rw [this] at h2; cases h2
            · rw [h2, pyStrLt_irrefl] at h1; cases h1
          · rcases h2 with h2 | h2
            · rw [h1, pyStrLt_irrefl] at h2; cases h2
            · rw [h1]

/-! ## Lemmas about the correlator -/

theorem buildRecord_fields {m : List (DockerKey × DockerInfo)} {env : ProcEnv}
    {c : Conn} {r : PortRecord} (h : buildRecord m env c = some r) :
    r.status = CONN_LISTEN ∧
    r.pid = c.pid ∧
    r.docker_container_name =
      (dictGet m (r.proto, r.ip, r.port)).map (fun i => i.container_name) ∧
    r.docker_container_id =
      (dictGet m (r.proto, r.ip, r.port)).map (fun i => i.container_id) ∧
    r.docker_image =
      (dictGet m (r.proto, r.ip, r.port)).map (fun i => i.image) ∧
    r.docker_port_spec =
      (dictGet m (r.proto, r.ip, r.port)).map (fun i => i.port_spec) ∧
    r.docker_container_port =
      (dictGet m (r.proto, r.ip, r.port)).map (fun i => i.container_port) ∧
    (r.process, r.cmdline, r.user) =
      (match c.pid with
       | some n => if n ≠ 0 then lookupProcFields env n else (none, none, none)
       | none => (none, none, none)) := by
  unfold buildRecord at h
  by_cases hs : c.status ≠ CONN_LISTEN
  · simp [hs] at h
  · rw [if_neg (by simpa using hs)] at h
    push_neg at hs
    cases hip : c.ip with
    | none => rw [hip] at h; simp at h
    | some ip =>
      cases hport : c.port with
      | none => rw [hip, hport] at h; simp at h
      | some port =>
        rw [hip, hport] at h
        simp only [Option.some.injEq] at h
        subst h
        refine ⟨hs, rfl, rfl, rfl, rfl, rfl, rfl, rfl⟩

theorem buildRecord_isSome (m : List (DockerKey × DockerInfo)) (env : ProcEnv)
    (c : Conn) :
    (buildRecord m env c).isSome =
      (decide (c.status = CONN_LISTEN) && c.ip.isSome && c.port.isSome) := by
  unfold buildRecord
  by_cases hs : c.status ≠ CONN_LISTEN
  · simp [hs]
  · push_neg at hs
    cases hip : c.ip with
    | none => simp [hs, hip]
    | some ip =>
      cases hport : c.port with
      | none => simp [hs, hip, hport]
      | some port => simp [hs, hip, hport]

theorem mem_collectRecords {conns : List Conn}
    {m : List (DockerKey × DockerInfo)} {env : ProcEnv} {r : PortRecord} :
    r ∈ collectRecords conns m env ↔
      ∃ c ∈ conns, buildRecord m env c = some r := by
  unfold collectRecords
  rw [List.mem_insertionSort, List.mem_filterMap]

theorem length_collectRecords (conns : List Conn)
    (m : List (DockerKey × DockerInfo)) (env : ProcEnv) :
    (collectRecords conns m env).length =
      conns.countP (fun c => decide (c.status = CONN_LISTEN) &&
        c.ip.isSome && c.port.isSome) := by
  unfold collectRecords
  rw [List.length_insertionSort, List.length_filterMap_eq_countP]
  congr 1
  funext c
  rw [buildRecord_isSome]

/-! ## Claim theorems -/

/-- C1: for every record produced by the correlator, the five
`docker_*` fields are present iff the exact `(protocol, ip, port)` key
of the socket is present in the container mapping, and all five are
absent when the key is absent. -/
theorem correlator_docker_fields_iff_key
    (conns : List Conn) (m : List (DockerKey × DockerInfo)) (env : ProcEnv)
    (r : PortRecord) (hr : r ∈ collectRecords conns m env) :
    ((r.docker_container_name.isSome = true ∧
      r.docker_container_id.isSome = true ∧
      r.docker_image.isSome = true ∧
      r.docker_port_spec.isSome = true ∧
      r.docker_container_port.isSome = true) ↔
      (dictGet m (r.proto, r.ip, r.port)).isSome = true) ∧
    (dictGet m (r.proto, r.ip, r.port) = none →
      r.docker_container_name = none ∧ r.docker_container_id = none ∧
      r.docker_image = none ∧ r.docker_port_spec = none ∧
      r.docker_container_port = none) := by
  obtain ⟨c, _, hc⟩ := mem_collectRecords.mp hr
  obtain ⟨_, _, h1, h2, h3, h4, h5, _⟩ := buildRecord_fields hc
  rw [h1, h2, h3, h4, h5]
  cases dictGet m (r.proto, r.ip, r.port) <;> simp

/-- Witness for C1, at the spec's example: sockets on 8080 and 9090,
only `(tcp, 0.0.0.0, 8080)` mapped; the 9090 record carries no
container fields. -/
theorem correlator_docker_fields_iff_key_witness :
    (({ proto := "tcp".toList, ip := "0.0.0.0".toList, port := 9090,
        status := CONN_LISTEN, pid := none, user := none, process := none,
        cmdline := none, docker_container_name := none,
        docker_container_id := none, docker_image := none,
        docker_port_spec := none, docker_container_port := none } :
        PortRecord) ∈ collectRecords [conn8080, conn9090] sampleMap envNone) ∧
    (dictGet sampleMap ("tcp".toList, "0.0.0.0".toList, (9090 : Int)) = none →
      (none : Option PyStr) = none ∧ (none : Option PyStr) = none ∧
      (none : Option PyStr) = none ∧ (none : Option PyStr) = none ∧
      (none : Option IntOrStr) = none) := by
  have h := correlator_docker_fields_iff_key [conn8080, conn9090] sampleMap
    envNone
    { proto := "tcp".toList, ip := "0.0.0.0".toList, port := 9090,
      status := CONN_LISTEN, pid := none, user := none, process := none,
      cmdline := none, docker_container_name := none,
      docker_container_id := none, docker_image := none,
      docker_port_spec := none, docker_container_port := none }
    (by decide)
  exact ⟨by decide, h.2⟩

/-- C2 (amended): the output is pairwise ordered by the three-key order
(protocol lexicographic, then port, then IP with ties allowed), and the
sequence of `(proto, port, ip)` key triples is independent of the
enumeration order of the input; full records that tie on all three keys
keep their enumeration order (the sort is stable), so the record
sequence itself is enumeration-order independent only when the key
triples are distinct. -/
theorem correlator_sort_order :
    (∀ (conns : List Conn) (m : List (DockerKey × DockerInfo))
       (env : ProcEnv),
      (collectRecords conns m env).Pairwise (fun A B =>
        pyStrLt A.proto B.proto = true ∨
        (A.proto = B.proto ∧ A.port < B.port) ∨
        (A.proto = B.proto ∧ A.port = B.port ∧
          (pyStrLt A.ip B.ip = true ∨ A.ip = B.ip)))) ∧
    (∀ (conns1 conns2 : List Conn) (m : List (DockerKey × DockerInfo))
       (env : ProcEnv), conns1.Perm conns2 →
      (collectRecords conns1 m env).map recKey =
        (collectRecords conns2 m env).map recKey) := by
  haveI : IsTotal PortRecord RecLe := ⟨fun a b => keyLe_total _ _⟩
  haveI : IsTrans PortRecord RecLe := ⟨fun a b c => keyLe_trans _ _ _⟩
  constructor
  · intro conns m env
    have hs : (collectRecords conns m env).Pairwise RecLe :=
      List.sorted_insertionSort RecLe _
    refine hs.imp ?_
    intro A B hAB
    have h := (keyLe_iff (recKey A) (recKey B)).mp hAB
    simp only [recKey] at h
    tauto
  · intro c1 c2 m env hperm
    have hfm : (c1.filterMap (buildRecord m env)).Perm
        (c2.filterMap (buildRecord m env)) := hperm.filterMap _
    have h1 : (collectRecords c1 m env).Perm (collectRecords c2 m env) := by
      unfold collectRecords
      exact ((List.perm_insertionSort RecLe _).trans hfm).trans
        (List.perm_insertionSort RecLe _).symm
    have hmap := h1.map recKey
    have hs1 : ((collectRecords c1 m env).map recKey).Pairwise
        (fun k1 k2 => keyLe k1 k2 = true) :=
      (List.sorted_insertionSort RecLe _).map recKey (fun _ _ h => h)
    have hs2 : ((collectRecords c2 m env).map recKey).Pairwise
        (fun k1 k2 => keyLe k1 k2 = true) :=
      (List.sorted_insertionSort RecLe _).map recKey (fun _ _ h => h)
    haveI : IsAntisymm (PyStr × Int × PyStr)
        (fun k1 k2 => keyLe k1 k2 = true) := ⟨fun a b => keyLe_antisymm a b⟩
    exact List.eq_of_perm_of_sorted hmap hs1 hs2

/-- Witness for C2: shuffling the spec's two-socket fixture does not
change the key sequence of the output. -/
theorem correlator_sort_order_witness :
    (collectRecords [conn9090, conn8080] sampleMap envNone).map recKey =
      (collectRecords [conn8080, conn9090] sampleMap envNone).map recKey :=
  correlator_sort_order.2 [conn9090, conn8080] [conn8080, conn9090]
    sampleMap envNone (by decide)

/-- Counterexample for C2 as stated: two listening sockets with the same
`(proto, port, ip)` key but different owning pids; reversing the
enumeration order reverses the two full records in the output, because
Python's sort is stable and breaks full-key ties by input order. -/
theorem correlator_sort_order_counterexample :
    ([connDupA, connDupB] : List Conn).Perm [connDupB, connDupA] ∧
    collectRecords [connDupA, connDupB] [] envNone ≠
      collectRecords [connDupB, connDupA] [] envNone := by
  constructor
  · decide
  · decide

/-- C3: every record in the output has listening status, and exactly
the socket entries that are listening and have a resolvable IP and port
contribute a record. -/
theorem correlator_only_listening
    (conns : List Conn) (m : List (DockerKey × DockerInfo)) (env : ProcEnv) :
    (∀ r ∈ collectRecords conns m env, r.status = CONN_LISTEN) ∧
    (collectRecords conns m env).length =
      (conns.filter (fun c => decide (c.status = CONN_LISTEN) &&
        c.ip.isSome && c.port.isSome)).length := by
  constructor
  · intro r hr
    obtain ⟨c, _, hc⟩ := mem_collectRecords.mp hr
    exact (buildRecord_fields hc).1
  · rw [length_collectRecords, List.countP_eq_length_filter]

/-- Witness for C3 at a one-socket table. -/
theorem correlator_only_listening_witness :
    (({ proto := "tcp".toList, ip := "0.0.0.0".toList, port := 8080,
        status := CONN_LISTEN, pid := none, user := none, process := none,
        cmdline := none, docker_container_name := none,
        docker_container_id := none, docker_image := none,
        docker_port_spec := none, docker_container_port := none } :
        PortRecord) ∈ collectRecords [conn8080] [] envNone) ∧
    ({ proto := "tcp".toList, ip := "0.0.0.0".toList, port := 8080,
        status := CONN_LISTEN, pid := none, user := none, process := none,
        cmdline := none, docker_container_name := none,
        docker_container_id := none, docker_image := none,
        docker_port_spec := none, docker_container_port := none } :
        PortRecord).status = CONN_LISTEN := by
  have h := (correlator_only_listening [conn8080] [] envNone).1
    { proto := "tcp".toList, ip := "0.0.0.0".toList, port := 8080,
      status := CONN_LISTEN, pid := none, user := none, process := none,
      cmdline := none, docker_container_name := none,
      docker_container_id := none, docker_image := none,
      docker_port_spec := none, docker_container_port := none }
    (by decide)
  exact ⟨by decide, h⟩

/-- Counterexample for C7 as stated: for pid 42 the `p.name()` call
succeeds and the `p.cmdline()` call then raises one of the caught
exceptions; the lookup thus failed, but the resulting record keeps the
already-assigned process name, so the three fields are not all null. -/
theorem attribution_failure_counterexample :
    collectRecords [connPg] [] envPartialFailure =
      [{ proto := "tcp".toList, ip := "127.0.0.1".toList, port := 5432,
         status := CONN_LISTEN, pid := some 42, user := none,
         process := some "postgres".toList, cmdline := none,
         docker_container_name := none, docker_container_id := none,
         docker_image := none, docker_port_spec := none,
         docker_container_port := none }] ∧
    (envPartialFailure 42).isSome = true := by
  constructor
  · decide
  · decide

/-- C7 (amended): a per-process lookup failure is caught for that
process id alone and never aborts the enumeration (every passing socket
still yields a record); if the handle acquisition or the name lookup
fails, all three fields are null; on a later failure the fields already
assigned are retained and the remaining ones are null. -/
theorem attribution_failure_isolated
    (conns : List Conn) (m : List (DockerKey × DockerInfo)) (env : ProcEnv) :
    (collectRecords conns m env).length =
      conns.countP (fun c => decide (c.status = CONN_LISTEN) &&
        c.ip.isSome && c.port.isSome) ∧
    ∀ r ∈ collectRecords conns m env, ∀ n : Int, r.pid = some n →
      (env n = none →
        r.process = none ∧ r.cmdline = none ∧ r.user = none) ∧
      (∀ pc, env n = some pc → pc.nameR = none →
        r.process = none ∧ r.cmdline = none ∧ r.user = none) ∧
      (∀ pc nm, n ≠ 0 → env n = some pc → pc.nameR = some nm →
        pc.cmdlineR = none →
        r.process = some nm ∧ r.cmdline = none ∧ r.user = none) ∧
      (∀ pc nm cl, n ≠ 0 → env n = some pc → pc.nameR = some nm →
        pc.cmdlineR = some cl → pc.usernameR = none →
        r.process = some nm ∧
          r.cmdline = some (List.intercalate [' '] cl) ∧ r.user = none) := by
  refine ⟨length_collectRecords conns m env, ?_⟩
  intro r hr n hpid
  obtain ⟨c, _, hc⟩ := mem_collectRecords.mp hr
  obtain ⟨_, hp, _, _, _, _, _, hf⟩ := buildRecord_fields hc
  rw [hpid] at hp
  rw [← hp] at hf
  by_cases hn : n = 0
  · subst hn
    simp only [ne_eq, not_true_eq_false, if_false] at hf
    have h1 : r.process = none := congrArg (fun t => t.1) hf
    have h2 : r.cmdline = none := congrArg (fun t => t.2.1) hf
    have h3 : r.user = none := congrArg (fun t => t.2.2) hf
    refine ⟨fun _ => ⟨h1, h2, h3⟩, fun _ _ _ => ⟨h1, h2, h3⟩,
      fun _ _ hn0 => absurd rfl hn0, fun _ _ _ hn0 => absurd rfl hn0⟩
  · simp only [ne_eq, hn, not_false_eq_true, if_true] at hf
    have h1 : r.process = (lookupProcFields env n).1 :=
      congrArg (fun t => t.1) hf
    have h2 : r.cmdline = (lookupProcFields env n).2.1 :=
      congrArg (fun t => t.2.1) hf
    have h3 : r.user = (lookupProcFields env n).2.2 :=
      congrArg (fun t => t.2.2) hf
    refine ⟨?_, ?_, ?_, ?_⟩
    · intro he
      rw [h1, h2, h3]
      simp [lookupProcFields, he]
    · intro pc he hnm
      rw [h1, h2, h3]
      simp [lookupProcFields, he, hnm]
    · intro pc nm _ he hnm hcl
      rw [h1, h2, h3]
      simp [lookupProcFields, he, hnm, hcl]
    · intro pc nm cl _ he hnm hcl hun
      rw [h1, h2, h3]
      simp [lookupProcFields, he, hnm, hcl, hun]

/-- Witness for C7 at a process table whose pid 42 lookup fails at the
name call: all three fields are null. -/
theorem attribution_failure_isolated_witness :
    (({ proto := "tcp".toList, ip := "127.0.0.1".toList, port := 5432,
        status := CONN_LISTEN, pid := some 42, user := none, process := none,
        cmdline := none, docker_container_name := none,
        docker_container_id := none, docker_image := none,
        docker_port_spec := none, docker_container_port := none } :
        PortRecord).process = none ∧
      (none : Option PyStr) = none ∧ (none : Option PyStr) = none) := by
  have h := ((attribution_failure_isolated [connPg] [] envNone).2
    { proto := "tcp".toList, ip := "127.0.0.1".toList, port := 5432,
      status := CONN_LISTEN, pid := some 42, user := none, process := none,
      cmdline := none, docker_container_name := none,
      docker_container_id := none, docker_image := none,
      docker_port_spec := none, docker_container_port := none }
    (by decide) 42 rfl).1 rfl
  exact ⟨h.1, h.2.1, h.2.2⟩

/-! ## Lemmas about the container collector -/

theorem pySplitChar_ne_nil (sep : Char) : ∀ s : PyStr, pySplitChar sep s ≠ []
  | [] => by simp [pySplitChar]
  | c :: rest => by
    unfold pySplitChar
    split_ifs
    · simp
    · cases h : pySplitChar sep rest <;> simp

theorem processLine_total (st : DockerState) (line : PyStr) :
    (processLine st line).containers_total =
      st.containers_total + (if lineValid line then 1 else 0) := by
  unfold processLine lineValid
  by_cases hb : (pyStrip line).isEmpty
  · simp [hb]
  · rw [if_neg hb]
    have hb2 : (!(pyStrip line).isEmpty) = true := by
      cases h : (pyStrip line).isEmpty
      · rfl
      · exact absurd h hb
    rcases hp : (pySplitChar '\t' line).map pyStrip with
      _ | ⟨a, _ | ⟨b, _ | ⟨c, _ | ⟨d, rest⟩⟩⟩⟩
    · simp [hb2]
    · simp [hb2]
    · simp [hb2]
    · simp [hb2]
    · have hlen : decide (4 ≤ ((a :: b :: c :: d :: rest) : List PyStr).length)
        = true := by
        simp only [List.length_cons, decide_eq_true_iff]
        omega
      simp only [hb2, Bool.true_and, hlen]
      split_ifs <;> rfl

theorem foldl_processLine_total (lines : List PyStr) :
    ∀ st : DockerState, (lines.foldl processLine st).containers_total =
      st.containers_total + lines.countP lineValid := by
  induction lines with
  | nil => intro st; simp
  | cons l ls ih =>
    intro st
    rw [List.foldl_cons, ih, processLine_total, List.countP_cons]
    by_cases h : lineValid l <;> simp [h] <;> omega


/-- C4 (amended): `containers_total` equals the number of lines of the
(stripped) listing output that are non-blank and split on tab into at
least the four expected fields; lines with fewer tab-separated fields
are skipped and not counted, and so are whitespace-only lines even when
they contain enough tabs to split into four (empty) fields. -/
theorem docker_containers_total_counts (raw : PyStr) :
    (collect_docker_port_mappings (.success raw)).2.containers_total =
      (pySplitChar '\n' (pyStrip raw)).countP lineValid := by
  by_cases hb : (pyStrip raw).isEmpty
  · have h0 : pyStrip raw = [] := by
      cases h : pyStrip raw
      · rfl
      · rw [h] at hb; simp at hb
    simp only [collect_docker_port_mappings, h0]
    rfl
  · have hb2 : (pyStrip raw).isEmpty = false := by
      cases h : (pyStrip raw).isEmpty
      · rfl
      · exact absurd h hb
    have hl : (pySplitChar '\n' (pyStrip raw)).isEmpty = false := by
      cases h : pySplitChar '\n' (pyStrip raw)
      · exact absurd h (pySplitChar_ne_nil '\n' (pyStrip raw))
      · rfl
    simp only [collect_docker_port_mappings]
    simp [hb2, hl, foldl_processLine_total]

/-- Counterexample for C4 as stated: in a listing whose middle line is
three tabs (whitespace-only, yet splitting on tab into four fields),
the claimed valid-line count is 3 but the collector counts 2, because
whitespace-only lines are skipped before splitting. -/
theorem docker_containers_total_counterexample :
    claimedValidLineCount tabsOnlyListing = 3 ∧
    (collect_docker_port_mappings
      (.success tabsOnlyListing)).2.containers_total = 2 := by
  constructor
  · decide
  · decide

/-! ## Lemmas for the dual-stack mapping claim -/

theorem stripBrackets_wrapped (inner : PyStr) :
    stripBrackets ('[' :: inner ++ [']']) = inner := by
  unfold stripBrackets
  have h1 : ('[' :: inner ++ [']'] : PyStr).head? = some '[' := rfl
  have h2 : ('[' :: inner ++ [']'] : PyStr).getLast? = some ']' := by
    show (('[' :: inner) ++ [']'] : PyStr).getLast? = some ']'
    exact List.getLast?_concat _
  rw [if_pos ⟨h1, h2⟩]
  simp [List.dropLast_concat]

theorem c5_state (line name cid image ports_str e4 e6 : PyStr)
    (k4 k6 : DockerKey) (i4 i6 : DockerInfo)
    (hnb : (pyStrip line).isEmpty = false)
    (hparts : (pySplitChar '\t' line).map pyStrip = [name, cid, image, ports_str])
    (hentries : portsEntries ports_str = [e4, e6])
    (h4 : parseEntry name cid image e4 = some (k4, i4))
    (h6 : parseEntry name cid image e6 = some (k6, i6))
    (hkk : k4 ≠ k6) :
    processLine ⟨[], 0, []⟩ line =
      ⟨[(k4, i4), (k6, i6)], 1, [name]⟩ := by
  have hps : ports_str.isEmpty = false := by
    cases h : ports_str with
    | cons a s => rfl
    | nil => rw [h] at hentries; simp [portsEntries, pySplitChar, pyStrip] at hentries
  unfold processLine
  rw [hnb, hparts]
  simp only [Bool.false_eq_true, if_false]
  rw [hps, hentries]
  simp only [Bool.false_eq_true, if_false, List.foldl_cons, List.foldl_nil, h4, h6]
  simp [dictInsert, hkk, setAdd]

/-- C5: a container line whose ports field holds an IPv4 host mapping
and a bracketed IPv6 host mapping yields two distinct mapping entries
keyed by their respective host IPs (the bracket-stripping step removes
the surrounding brackets from any bracketed address), and the container
counts once in `containers_with_published_ports`. -/
theorem docker_dual_stack_two_entries :
    (∀ inner : PyStr, stripBrackets ('[' :: inner ++ [']']) = inner) ∧
    (∀ (raw line name cid image ports_str e4 e6 : PyStr)
       (k4 k6 : DockerKey) (i4 i6 : DockerInfo),
       pySplitChar '\n' (pyStrip raw) = [line] →
       (pyStrip line).isEmpty = false →
       (pySplitChar '\t' line).map pyStrip = [name, cid, image, ports_str] →
       portsEntries ports_str = [e4, e6] →
       parseEntry name cid image e4 = some (k4, i4) →
       parseEntry name cid image e6 = some (k6, i6) →
       k4 ≠ k6 →
       dictGet (collect_docker_port_mappings (.success raw)).1 k4 = some i4 ∧
       dictGet (collect_docker_port_mappings (.success raw)).1 k6 = some i6 ∧
       (collect_docker_port_mappings
         (.success raw)).2.containers_with_published_ports = 1 ∧
       (collect_docker_port_mappings (.success raw)).2.containers_total = 1) := by
  refine ⟨stripBrackets_wrapped, ?_⟩
  intro raw line name cid image ports_str e4 e6 k4 k6 i4 i6
    hlines hnb hparts hentries h4 h6 hkk
  have hraw : (pyStrip raw).isEmpty = false := by
    cases h : pyStrip raw with
    | nil =>
      rw [h] at hlines
      simp only [pySplitChar] at hlines
      have hl0 : line = ([] : PyStr) := by
        cases hlines
        rfl
      rw [hl0] at hnb
      simp [pyStrip] at hnb
    | cons a s => rfl
  have hcoll : collect_docker_port_mappings (.success raw) =
      ([(k4, i4), (k6, i6)],
       { available := true, error := none, containers_total := 1,
         containers_with_published_ports := 1 }) := by
    simp only [collect_docker_port_mappings]
    rw [hraw, hlines]
    simp only [Bool.false_eq_true, if_false, List.isEmpty_cons,
      List.foldl_cons, List.foldl_nil]
    rw [c5_state line name cid image ports_str e4 e6 k4 k6 i4 i6
      hnb hparts hentries h4 h6 hkk]
    rfl
  rw [hcoll]
  refine ⟨?_, ?_, rfl, rfl⟩
  · simp [dictGet, List.find?]
  · simp [dictGet, List.find?, hkk]

/-- Witness for C5 at the dual-stack example line: both keys are in the
mapping (with `[::]` stripped to `::`) and the container counts once. -/
theorem docker_dual_stack_two_entries_witness :
    dictGet (collect_docker_port_mappings (.success dualStackListing)).1
      ("tcp".toList, "0.0.0.0".toList, (8080 : Int)) =
      some { container_name := "nginx".toList, container_id := "abc123".toList,
             image := "nginx:latest".toList,
             port_spec := "0.0.0.0:8080->80/tcp".toList,
             container_port := .int 80 } ∧
    dictGet (collect_docker_port_mappings (.success dualStackListing)).1
      ("tcp".toList, "::".toList, (8080 : Int)) =
      some { container_name := "nginx".toList, container_id := "abc123".toList,
             image := "nginx:latest".toList,
             port_spec := "[::]:8080->80/tcp".toList,
             container_port := .int 80 } ∧
    (collect_docker_port_mappings
      (.success dualStackListing)).2.containers_with_published_ports = 1 ∧
    (collect_docker_port_mappings
      (.success dualStackListing)).2.containers_total = 1 :=
  docker_dual_stack_two_entries.2 dualStackListing dualStackListing
    "nginx".toList "abc123".toList "nginx:latest".toList
    "0.0.0.0:8080->80/tcp, [::]:8080->80/tcp".toList
    "0.0.0.0:8080->80/tcp".toList "[::]:8080->80/tcp".toList
    ("tcp".toList, "0.0.0.0".toList, 8080) ("tcp".toList, "::".toList, 8080)
    { container_name := "nginx".toList, container_id := "abc123".toList,
      image := "nginx:latest".toList,
      port_spec := "0.0.0.0:8080->80/tcp".toList, container_port := .int 80 }
    { container_name := "nginx".toList, container_id := "abc123".toList,
      image := "nginx:latest".toList,
      port_spec := "[::]:8080->80/tcp".toList, container_port := .int 80 }
    (by decide) (by decide) (by decide) (by decide) (by decide) (by decide)
    (by decide)

/-- C6: a missing binary or non-zero exit of the listing command yields
an empty mapping with `available = false` and a non-null descriptive
error string; a successful empty output yields `available = true` with
zero counts; and report generation still completes, with no container
fields on any record. -/
theorem docker_failure_modes :
    ((collect_docker_port_mappings .binaryMissing).1 = [] ∧
     (collect_docker_port_mappings .binaryMissing).2.available = false ∧
     (collect_docker_port_mappings .binaryMissing).2.error =
       some errBinaryMissing) ∧
    (∀ msg : PyStr,
      (collect_docker_port_mappings (.exitNonZero msg)).1 = [] ∧
      (collect_docker_port_mappings (.exitNonZero msg)).2.available = false ∧
      (collect_docker_port_mappings (.exitNonZero msg)).2.error =
        some (errPsFailed ++ msg)) ∧
    (∀ raw : PyStr, (pyStrip raw).isEmpty = true →
      (collect_docker_port_mappings (.success raw)).1 = [] ∧
      (collect_docker_port_mappings (.success raw)).2.available = true ∧
      (collect_docker_port_mappings (.success raw)).2.containers_total = 0 ∧
      (collect_docker_port_mappings
        (.success raw)).2.containers_with_published_ports = 0) ∧
    (∀ (hostname now : PyStr) (ipr : Option (Int × Int))
       (conns : List Conn) (env : ProcEnv),
      ∃ rep, build_report ⟨hostname, now, ipr, .binaryMissing, .ok conns, env⟩
          = .ok rep ∧
        rep.docker.available = false ∧
        ∀ r ∈ rep.ports, r.docker_container_name = none ∧
          r.docker_container_id = none ∧ r.docker_image = none ∧
          r.docker_port_spec = none ∧ r.docker_container_port = none) := by
  refine ⟨⟨rfl, rfl, rfl⟩, fun msg => ⟨rfl, rfl, rfl⟩, ?_, ?_⟩
  · intro raw h
    simp only [collect_docker_port_mappings, h]
    exact ⟨rfl, rfl, rfl, rfl⟩
  · intro hostname now ipr conns env
    refine ⟨{ schema_version := "1.1.0".toList, script_version := "1.1.0".toList,
              host := hostname, generated_at := now, ip_local_port_range := ipr,
              docker := { initMeta with error := some errBinaryMissing },
              ports := collectRecords conns [] env }, rfl, rfl, ?_⟩
    intro r hr
    obtain ⟨c, _, hc⟩ := mem_collectRecords.mp hr
    obtain ⟨_, _, h1, h2, h3, h4, h5, _⟩ := buildRecord_fields hc
    simp only [dictGet, List.find?, Option.map_none] at h1 h2 h3 h4 h5
    exact ⟨h1, h2, h3, h4, h5⟩

/-- Witness for C6: whitespace-only command output. -/
theorem docker_failure_modes_witness :
    (collect_docker_port_mappings (.success " \n ".toList)).1 = [] ∧
    (collect_docker_port_mappings (.success " \n ".toList)).2.available = true ∧
    (collect_docker_port_mappings (.success " \n ".toList)).2.containers_total
      = 0 ∧
    (collect_docker_port_mappings
      (.success " \n ".toList)).2.containers_with_published_ports = 0 :=
  docker_failure_modes.2.2.1 " \n ".toList (by decide)

/-- C8: the port checker consumes exactly one connection attempt and
returns free iff that attempt completed with a non-zero result code;
an `OSError` yields not-free (fail-closed); the default timeout is one
half second; and with the check flag supplied the exit code is 0 for
free and 1 otherwise, with exactly one check event in the run. -/
theorem port_check_fail_closed :
    (∀ (host : PyStr) (port : Int) (timeout : ℚ) (o : ConnectOutcome),
      check_port_free host port timeout o = true ↔
        ∃ n : Int, o = .code n ∧ n ≠ 0) ∧
    defaultCheckTimeout = 1 / 2 ∧
    (∀ (args : Args) (he : HostEnv) (o : ConnectOutcome) (p : Int)
       (rep : Report), args.check_port = some p → build_report he = .ok rep →
      ((mainRun args he o).1.countP isCheckedPort = 1) ∧
      (mainRun args he o).2 =
        .ok (if check_port_free args.host p defaultCheckTimeout o
          then 0 else 1)) := by
  refine ⟨?_, rfl, ?_⟩
  · intro host port timeout o
    cases o with
    | code n => simp [check_port_free]
    | oserror => simp [check_port_free]
  · intro args he o p rep hcp hrep
    unfold mainRun
    rw [hrep, hcp]
    constructor
    · cases hh : args.html <;>
        by_cases hc : check_port_free args.host p defaultCheckTimeout o <;>
        simp [hh, hc, isCheckedPort]
    · by_cases hc : check_port_free args.host p defaultCheckTimeout o <;>
        cases hh : args.html <;> simp [hh, hc]

/-- Witness for C8: result code 111 (connection refused) means free,
exit code 0. -/
theorem port_check_fail_closed_witness :
    ((mainRun
        { host := "127.0.0.1".toList, check_port := some 80,
          json_path := none, html := false }
        (sampleHostEnv .binaryMissing (.ok [])) (.code 111)).1.countP
          isCheckedPort = 1) ∧
    (mainRun
        { host := "127.0.0.1".toList, check_port := some 80,
          json_path := none, html := false }
        (sampleHostEnv .binaryMissing (.ok [])) (.code 111)).2 =
      .ok (if check_port_free "127.0.0.1".toList 80 defaultCheckTimeout
        (.code 111) then 0 else 1) :=
  port_check_fail_closed.2.2
    { host := "127.0.0.1".toList, check_port := some 80,
      json_path := none, html := false }
    (sampleHostEnv .binaryMissing (.ok [])) (.code 111) 80
    { schema_version := "1.1.0".toList, script_version := "1.1.0".toList,
      host := "host".toList,
      generated_at := "2026-01-01T00:00:00+00:00".toList,
      ip_local_port_range := none,
      docker := { initMeta with error := some errBinaryMissing },
      ports := [] }
    rfl rfl

/-- C9: when the socket enumeration fails, the error propagates out of
the report builder, the run ends with a non-zero outcome, and the event
trace is empty — no output file is written. -/
theorem socket_enumeration_failure_fatal (he : HostEnv) (e : PyStr)
    (hne : he.netConns = .error e) :
    build_report he = .error e ∧
    ∀ (args : Args) (o : ConnectOutcome), mainRun args he o = ([], .error e) := by
  have hb : build_report he = .error e := by
    unfold build_report
    rw [hne]
    rfl
  refine ⟨hb, fun args o => ?_⟩
  unfold mainRun
  rw [hb]

/-- Witness for C9 at a concrete failing enumeration. -/
theorem socket_enumeration_failure_fatal_witness :
    build_report (sampleHostEnv .binaryMissing (.error "boom".toList)) =
      .error "boom".toList ∧
    mainRun
      { host := "127.0.0.1".toList, check_port := none,
        json_path := none, html := false }
      (sampleHostEnv .binaryMissing (.error "boom".toList)) (.code 0) =
      ([], .error "boom".toList) := by
  have h := socket_enumeration_failure_fatal
    (sampleHostEnv .binaryMissing (.error "boom".toList)) "boom".toList rfl
  exact ⟨h.1, h.2 _ _⟩

/-- C10: on every invocation that builds a report, the JSON write is
the first event and occurs exactly once, before any runtime port check;
dropping the check flag leaves the written report unchanged; only the
exit code differs between the two code paths. -/
theorem report_written_once_before_check
    (args : Args) (he : HostEnv) (o : ConnectOutcome) (rep : Report)
    (hrep : build_report he = .ok rep) :
    (∃ rest, (mainRun args he o).1 =
        Event.wroteJson args.json_path rep :: rest ∧
        rest.countP isWroteJson = 0) ∧
    (mainRun { args with check_port := none } he o).1.countP isWroteJson = 1 ∧
    (mainRun { args with check_port := none } he o).1.head? =
      some (Event.wroteJson args.json_path rep) ∧
    (mainRun { args with check_port := none } he o).2 = Except.ok 0 ∧
    (mainRun args he o).2 = (match args.check_port with
      | none => Except.ok 0
      | some p => Except.ok
          (if check_port_free args.host p defaultCheckTimeout o
            then 0 else 1)) := by
  obtain ⟨host, cp, jp, html⟩ := args
  unfold mainRun
  rw [hrep]
  cases html with
  | false =>
    cases cp with
    | none => exact ⟨⟨[], rfl, rfl⟩, rfl, rfl, rfl, rfl⟩
    | some p =>
      dsimp only
      by_cases hc : check_port_free host p defaultCheckTimeout o
      · rw [if_pos hc]
        exact ⟨⟨[Event.checkedPort host p], rfl, rfl⟩, rfl, rfl, rfl,
          by rw [if_pos hc]⟩
      · rw [if_neg hc]
        exact ⟨⟨[Event.checkedPort host p], rfl, rfl⟩, rfl, rfl, rfl,
          by rw [if_neg hc]⟩
  | true =>
    cases cp with
    | none => exact ⟨⟨[Event.wroteHtml rep], rfl, rfl⟩, rfl, rfl, rfl, rfl⟩
    | some p =>
      dsimp only
      by_cases hc : check_port_free host p defaultCheckTimeout o
      · rw [if_pos hc]
        exact ⟨⟨[Event.wroteHtml rep, Event.checkedPort host p], rfl, rfl⟩,
          rfl, rfl, rfl, by rw [if_pos hc]⟩
      · rw [if_neg hc]
        exact ⟨⟨[Event.wroteHtml rep, Event.checkedPort host p], rfl, rfl⟩,
          rfl, rfl, rfl, by rw [if_neg hc]⟩

/-- Witness for C10 with the HTML flag set and no check flag. -/
theorem report_written_once_before_check_witness :
    ((mainRun
        { host := "127.0.0.1".toList, check_port := none,
          json_path := none, html := true }
        (sampleHostEnv .binaryMissing (.ok [])) (.code 7)).1.countP
          isWroteJson = 1) ∧
    ((mainRun
        { host := "127.0.0.1".toList, check_port := none,
          json_path := none, html := true }
        (sampleHostEnv .binaryMissing (.ok [])) (.code 7)).1.head? =
      some (Event.wroteJson none
        { schema_version := "1.1.0".toList, script_version := "1.1.0".toList,
          host := "host".toList,
          generated_at := "2026-01-01T00:00:00+00:00".toList,
          ip_local_port_range := none,
          docker := { initMeta with error := some errBinaryMissing },
          ports := [] })) ∧
    ((mainRun
        { host := "127.0.0.1".toList, check_port := none,
          json_path := none, html := true }
        (sampleHostEnv .binaryMissing (.ok [])) (.code 7)).2 =
      Except.ok 0) := by
  have h := report_written_once_before_check
    { host := "127.0.0.1".toList, check_port := some 9999,
      json_path := none, html := true }
    (sampleHostEnv .binaryMissing (.ok [])) (.code 7)
    { schema_version := "1.1.0".toList, script_version := "1.1.0".toList,
      host := "host".toList,
      generated_at := "2026-01-01T00:00:00+00:00".toList,
      ip_local_port_range := none,
      docker := { initMeta with error := some errBinaryMissing },
      ports := [] }
    rfl
  exact ⟨h.2.1, h.2.2.1, h.2.2.2.1⟩
